import Mathlib

/-!
Shallow embedding of the kvm-flavor pod networking subsystem of rkt
(networking/kvm.go): lease-file parsing, the flannel delegate transformation,
topology provisioning over an explicit netlink state, the IPAM invocation
wrapper, and the best-effort teardown coordinator.

Conventions of the embedding:
* Go functions returning (T, error) become functions returning Except Err T
  (or a pair with the threaded state).
* A Go runtime panic (out-of-range slice index, nil-pointer dereference,
  failed type assertion) is modelled as the Option value none wrapped around
  the normal result.
* Kernel interaction (netlink) is an explicit NetlinkState value threaded
  through the provisioning functions; fallible kernel operations whose
  outcome depends on the environment take a decision oracle.
-/

namespace KvmNet

/-- An IPv4 address as four octets, as produced by the net package. -/
structure IPv4 where
  o1 : Nat
  o2 : Nat
  o3 : Nat
  o4 : Nat
deriving DecidableEq, Repr

/-- The numeric value of an IPv4 address. -/
def IPv4.toNat (a : IPv4) : Nat :=
  ((a.o1 * 256 + a.o2) * 256 + a.o3) * 256 + a.o4

/-- The IPv4 address with a given numeric value (mod 2^32). -/
def IPv4.ofNat (n : Nat) : IPv4 :=
  ⟨n / 2 ^ 24 % 256, n / 2 ^ 16 % 256, n / 2 ^ 8 % 256, n % 256⟩

/-- Apply a CIDR mask of the given length: zero the low (32 - plen) bits.
This models net.IP.Mask with a canonical CIDR mask. -/
def maskIPv4 (a : IPv4) (plen : Nat) : IPv4 :=
  IPv4.ofNat (a.toNat / 2 ^ (32 - plen) * 2 ^ (32 - plen))

/-- A network in CIDR form (net.IPNet with a canonical mask): the masked
network address plus the mask length. -/
structure IPNet where
  ip : IPv4
  plen : Nat
deriving DecidableEq, Repr

/-- Dotted-quad rendering of an IPv4 address (net.IP.String for IPv4). -/
def ipv4String (a : IPv4) : String :=
  toString a.o1 ++ "." ++ toString a.o2 ++ "." ++ toString a.o3 ++ "." ++ toString a.o4

/-- Rendering of a CIDR network (net.IPNet.String with a canonical mask). -/
def ipNetString (n : IPNet) : String :=
  ipv4String n.ip ++ "/" ++ toString n.plen

/-- Split a character list at every occurrence of a separator character
(the behaviour of strings.Split with a one-character separator). -/
def chSplit (sep : Char) : List Char → List (List Char)
  | [] => [[]]
  | c :: cs =>
    let r := chSplit sep cs
    if c = sep then [] :: r
    else
      match r with
      | [] => [[c]]
      | h :: t => (c :: h) :: t

/-- Find the first occurrence of a separator character: the text before it
and the text after it, or none when the character does not occur. -/
def chSplitFirst (sep : Char) : List Char → Option (List Char × List Char)
  | [] => none
  | c :: cs =>
    if c = sep then some ([], cs)
    else (chSplitFirst sep cs).map (fun p => (c :: p.1, p.2))

/-- Accumulator loop for decimal parsing: every character must be a digit. -/
def decValAux : List Char → Nat → Option Nat
  | [], acc => some acc
  | c :: cs, acc =>
    if c.isDigit then decValAux cs (acc * 10 + (c.toNat - 48)) else none

/-- Parse a nonempty all-digit decimal string. -/
def parseDecimal (s : String) : Option Nat :=
  match s.data with
  | [] => none
  | l => decValAux l 0

/-- Parse one decimal octet of an IPv4 address: digits only, value at most
255 (models the octet parsing inside net.ParseIP for IPv4). -/
def parseOctet (s : String) : Option Nat :=
  match parseDecimal s with
  | some n => if n ≤ 255 then some n else none
  | none => none

/-- Parse a dotted-quad IPv4 address (models net.ParseIP on IPv4 input). -/
def parseIPv4 (s : String) : Option IPv4 :=
  match (chSplit '.' s.data).map String.mk with
  | [a, b, c, d] =>
    match parseOctet a, parseOctet b, parseOctet c, parseOctet d with
    | some a, some b, some c, some d => some ⟨a, b, c, d⟩
    | _, _, _, _ => none
  | _ => none

/-- Parse a CIDR string and return the masked network (models the IPv4
behaviour of net.ParseCIDR: the returned IPNet has the host bits cleared). -/
def parseCIDR (s : String) : Option IPNet :=
  match (chSplit '/' s.data).map String.mk with
  | [ipStr, plenStr] =>
    match parseIPv4 ipStr, parseDecimal plenStr with
    | some ip, some plen =>
      if plen ≤ 32 then some ⟨maskIPv4 ip plen, plen⟩ else none
    | _, _ => none
  | _ => none

/-- Parse an unsigned decimal that must fit in 32 bits (models
strconv.ParseUint with base 10 and bitSize 32). -/
def parseUint32 (s : String) : Option Nat :=
  match parseDecimal s with
  | some n => if n < 2 ^ 32 then some n else none
  | none => none

/-- The subnet lease environment read from the flannel subnet file
(struct subnetEnv of kvm.go). The two networks are pointers in the source,
nil until their key is seen; hence the Option. -/
structure SubnetEnv where
  nw : Option IPNet
  sn : Option IPNet
  mtu : Nat
  ipmasq : Bool
deriving DecidableEq, Repr

/-- The zero value of subnetEnv, as allocated by loadFlannelSubnetEnv. -/
def SubnetEnv.empty : SubnetEnv := ⟨none, none, 0, false⟩

/-- strings.SplitN with separator "=" and n = 2: the text before the first
"=" and, when a "=" exists, everything after it. -/
def splitN2 (s : String) : List String :=
  match chSplitFirst '=' s.data with
  | none => [s]
  | some p => [String.mk p.1, String.mk p.2]

/-- The scanner loop of loadFlannelSubnetEnv over the lines of the file.
Each line is split at the first "=". The switch on the key then reads
parts[1] without checking that a "=" was present: on a recognized key
without "=" the source indexes past the end of the slice, a runtime panic,
modelled as none. -/
def scanSubnetLines : SubnetEnv → List String → Option (Except String SubnetEnv)
  | se, [] => some (.ok se)
  | se, l :: ls =>
    let parts := splitN2 l
    match parts.headD "" with
    | "FLANNEL_NETWORK" =>
      match parts.get? 1 with
      | none => none
      | some v =>
        match parseCIDR v with
        | none => some (.error "invalid CIDR")
        | some nw => scanSubnetLines { se with nw := some nw } ls
    | "FLANNEL_SUBNET" =>
      match parts.get? 1 with
      | none => none
      | some v =>
        match parseCIDR v with
        | none => some (.error "invalid CIDR")
        | some sn => scanSubnetLines { se with sn := some sn } ls
    | "FLANNEL_MTU" =>
      match parts.get? 1 with
      | none => none
      | some v =>
        match parseUint32 v with
        | none => some (.error "invalid MTU")
        | some mtu => scanSubnetLines { se with mtu := mtu } ls
    | "FLANNEL_IPMASQ" =>
      match parts.get? 1 with
      | none => none
      | some v => scanSubnetLines { se with ipmasq := v == "true" } ls
    | _ => scanSubnetLines se ls

/-- loadFlannelSubnetEnv: open the lease file (an abstract file system maps
a path to its lines, none meaning the open fails) and scan its lines.
The outer none is a runtime panic inside the scan. -/
def loadFlannelSubnetEnv (files : String → Option (List String)) (fn : String) :
    Option (Except String SubnetEnv) :=
  match files fn with
  | none => some (.error "open failed")
  | some ls => scanSubnetLines SubnetEnv.empty ls

/-! ## Data model: network configuration and runtime state -/

/-- The IPv4 block returned by an allocator plugin (cnitypes.IPConfig flattened:
the IP field is an IPNet carrying address and mask, plus the gateway). -/
structure IPConfig4 where
  ip : IPv4
  mask : IPv4
  gateway : IPv4
deriving DecidableEq, Repr

/-- The zero IPConfig value, as in a fresh cnitypes.IPConfig literal. -/
def IPConfig4.zero : IPConfig4 := ⟨⟨0, 0, 0, 0⟩, ⟨0, 0, 0, 0⟩, ⟨0, 0, 0, 0⟩⟩

/-- The allocator (IPAM) sub-configuration of nettypes.NetConf. -/
structure IPAMConf where
  type : String
deriving DecidableEq, Repr

/-- nettypes.NetConf: the parsed common configuration of one network. -/
structure NetConf where
  name : String
  type : String
  ipMasq : Bool
  mtu : Nat
  ipam : IPAMConf
deriving DecidableEq, Repr

/-- netinfo.NetInfo: runtime state of one network. Nil slices and nil
pointers of the source are Option none here. -/
structure NetInfo where
  ifName : String
  ip : Option IPv4
  mask : Option IPv4
  hostIP : Option IPv4
  ip4 : Option IPConfig4
deriving DecidableEq, Repr

/-- The ipam object the flannel transformer stores under the ipam key of the delegate: a host-local allocator over a subnet with routes. -/
structure IpamBlock where
  type : String
  subnet : String
  routes : List IPNet
deriving DecidableEq, Repr

/-- A JSON-ish value as it occurs in the untyped delegate dictionary.
A number decoded from JSON text is jnum; a Go int stored directly into the
dictionary by the transformer is jint — the distinction matters because the
final int type assertion of the transformer succeeds only on the latter. -/
inductive JValue where
  | jstr (s : String)
  | jbool (b : Bool)
  | jnum (n : Int)
  | jint (n : Nat)
  | jipam (i : IpamBlock)
deriving DecidableEq, Repr

/-- The untyped delegate dictionary. -/
abbrev DelegateMap := List (String × JValue)

/-- hasKey of kvm.go. -/
def hasKey (m : DelegateMap) (k : String) : Bool :=
  (m.lookup k).isSome

/-- isString of kvm.go, applied to an indexed dictionary value (a missing
key indexes to a nil interface, which is not a string). -/
def isString : Option JValue → Bool
  | some (.jstr _) => true
  | _ => false

/-- Store a value under a key (Go map assignment). -/
def mapSet (m : DelegateMap) (k : String) (v : JValue) : DelegateMap :=
  match m with
  | [] => [(k, v)]
  | (k', v') :: rest => if k' = k then (k, v) :: rest else (k', v') :: mapSet rest k v

/-- Go string type assertion on a dictionary value. -/
def asString : JValue → Option String
  | .jstr s => some s
  | _ => none

/-- Go bool type assertion on a dictionary value. -/
def asBool : JValue → Option Bool
  | .jbool b => some b
  | _ => none

/-- Go int type assertion on a dictionary value: a JSON-decoded number is a
float64 in Go, so only a directly stored Go int satisfies it. -/
def asInt : JValue → Option Nat
  | .jint n => some n
  | _ => none

/-- The fields of the raw JSON configuration of an overlay (flannel) network, as
far as loadFlannelNetConf reads them; absent keys are none. -/
structure FlannelConfDoc where
  name : String
  type : String
  subnetFile : Option String
  delegate : Option DelegateMap
deriving DecidableEq, Repr

/-- The raw configuration bytes of a network, represented by what the
functions of kvm.go parse out of them. -/
inductive ConfBytes where
  | overlayDoc (doc : FlannelConfDoc)
  | bridgeDoc (brName : Option String) (mtu : Option Nat) (isGw : Option Bool)
  | macvlanDoc (master : String) (mode : String) (mtu : Nat)
  | marshaled (m : DelegateMap)
deriving DecidableEq, Repr

/-- nettypes.ActiveNet: one network descriptor of the pod aggregate. -/
structure ActiveNet where
  confBytes : ConfBytes
  conf : NetConf
  runtime : NetInfo
deriving DecidableEq, Repr

/-! ## Address Allocator Bridge (kvmSetupNetAddressing) -/

/-- One external plugin invocation: the configuration (whose type field
names the executable), the raw bytes passed on standard input, the command
and the interface name. -/
structure Invocation where
  conf : NetConf
  confBytes : ConfBytes
  cmd : String
  ifName : String
deriving DecidableEq, Repr

/-- What the invoked plugin process writes on standard output: either bytes
that do not parse as a result document, or a parsed result whose IP4 block
may be absent. -/
inductive PluginOut where
  | bad
  | good (ip4 : Option IPConfig4)
deriving DecidableEq, Repr

/-- The behaviour of the environment for external plugin invocations. -/
def ExecOracle : Type := Invocation → Except String PluginOut

/-- kvmSetupNetAddressing: enable forwarding, substitute the type field of the descriptor with its allocator sub-type, invoke the plugin with command ADD,
restore the type, then parse the output and on success write the four
runtime fields in a single step. Returns the updated descriptor, the error
if any, and the list of plugin invocations made. -/
def kvmSetupNetAddressing (exec : ExecOracle) (fwdOk : Bool) (n : ActiveNet)
    (ifName : String) : ActiveNet × Option String × List Invocation :=
  if ¬ fwdOk then (n, some "failed to enable forwarding", [])
  else
    let original_type := n.conf.type
    let n1 : ActiveNet := { n with conf := { n.conf with type := n.conf.ipam.type } }
    let inv : Invocation := ⟨n1.conf, n1.confBytes, "ADD", ifName⟩
    let output := exec inv
    let n2 : ActiveNet := { n1 with conf := { n1.conf with type := original_type } }
    match output with
    | .error e => (n2, some ("problem executing network plugin: " ++ e), [inv])
    | .ok .bad => (n2, some "error parsing result", [inv])
    | .ok (.good none) => (n2, some "net-plugin returned no IPv4 configuration", [inv])
    | .ok (.good (some ip4)) =>
      ({ n2 with
          runtime := { n2.runtime with
            ip := some ip4.ip, mask := some ip4.mask,
            hostIP := some ip4.gateway, ip4 := some ip4 } },
       none, [inv])

/-! ## Flannel Delegate Transformer -/

/-- defaultSubnetFile of kvm.go. -/
def defaultSubnetFile : String := "/run/flannel/subnet.env"

/-- defaultBrName of kvm.go. -/
def defaultBrName : String := "kvm-cni0"

/-- defaultMTU of kvm.go. -/
def defaultMTU : Nat := 1500

/-- The parsed FlannelNetConf after loadFlannelNetConf applied its default:
the subnet file path defaults to defaultSubnetFile when absent. -/
structure FlannelNetConf where
  name : String
  type : String
  subnetFile : String
  delegate : Option DelegateMap
deriving DecidableEq, Repr

/-- loadFlannelNetConf: unmarshal the overlay configuration bytes over a
value preset with the default subnet file path. Bytes that are not an
overlay document fail to supply the overlay fields; the transformer is only
ever invoked on overlay configurations. -/
def loadFlannelNetConf : ConfBytes → Except String FlannelNetConf
  | .overlayDoc doc =>
    .ok ⟨doc.name, doc.type, doc.subnetFile.getD defaultSubnetFile, doc.delegate⟩
  | _ => .error "failed to load netconf"

/-- kvmTransformFlannelNetwork: rewrite an overlay descriptor into its
delegate. The outer none is a Go runtime panic (failed type assertion or
nil-pointer dereference of a missing lease network). -/
def kvmTransformFlannelNetwork (files : String → Option (List String))
    (an : ActiveNet) : Option (Except String ActiveNet) :=
  match loadFlannelNetConf an.confBytes with
  | .error e => some (.error e)
  | .ok n =>
    match loadFlannelSubnetEnv files n.subnetFile with
    | none => none
    | some (.error e) => some (.error e)
    | some (.ok fenv) =>
      let dcheck : Except String DelegateMap :=
        match n.delegate with
        | none => .ok []
        | some d =>
          if hasKey d "type" && !isString (d.lookup "type") then
            .error "delegate dictionary, if present, must have string type field"
          else if hasKey d "name" then
            .error "delegate dictionary must not have name field, it will be set by flannel"
          else if hasKey d "ipam" then
            .error "delegate dictionary must not have ipam field, it will be set by flannel"
          else .ok d
      match dcheck with
      | .error e => some (.error e)
      | .ok d0 =>
        let d1 := mapSet d0 "name" (.jstr n.name)
        let d2 := if hasKey d1 "type" then d1 else mapSet d1 "type" (.jstr "bridge")
        let d3 :=
          if hasKey d2 "ipMasq" then d2
          else mapSet d2 "ipMasq" (.jbool (!fenv.ipmasq))
        let d4 := if hasKey d3 "mtu" then d3 else mapSet d3 "mtu" (.jint fenv.mtu)
        match (d4.lookup "type").bind (fun v => asString v) with
        | none => none
        | some t =>
          let d5 :=
            if t = "bridge" then
              if hasKey d4 "isGateway" then d4
              else mapSet d4 "isGateway" (.jbool true)
            else d4
          match fenv.sn, fenv.nw with
          | some sn, some nw =>
            let d6 := mapSet d5 "ipam" (.jipam ⟨"host-local", ipNetString sn, [nw]⟩)
            match (d6.lookup "type").bind (fun v => asString v),
                  (d6.lookup "ipMasq").bind (fun v => asBool v),
                  (d6.lookup "mtu").bind (fun v => asInt v) with
            | some t2, some im, some mt =>
              some (.ok
                { confBytes := .marshaled d6,
                  conf :=
                    { name := n.name, type := t2, ipMasq := im, mtu := mt,
                      ipam := ⟨"host-local"⟩ },
                  runtime :=
                    { ifName := "", ip := none, mask := none, hostIP := none,
                      ip4 := some IPConfig4.zero } })
            | _, _, _ => none
          | _, _ => none

/-! ## Netlink world model -/

/-- The macvlan modes of the netlink package. -/
inductive MacvlanMode where
  | MACVLAN_MODE_BRIDGE
  | MACVLAN_MODE_PRIVATE
  | MACVLAN_MODE_VEPA
  | MACVLAN_MODE_PASSTHRU
deriving DecidableEq, Repr

/-- The kind of a kernel link. -/
inductive LinkKind where
  | tap
  | bridge
  | macvtap (mode : MacvlanMode) (parentIndex : Nat)
  | other (k : String)
deriving DecidableEq, Repr

/-- A kernel link: name, kind, MTU and interface index. Administrative
up state is kept in the netlink state, not in the link record, mirroring the
fact that a link handle stays valid across state changes. -/
structure Link where
  name : String
  kind : LinkKind
  mtu : Nat
  index : Nat
deriving DecidableEq, Repr

/-- An address (net.IPNet of a netlink.Addr): address plus mask. The source
compares addresses by their canonical string rendering; for well-formed
values that coincides with structural equality used here. -/
structure Addr where
  ip : IPv4
  mask : IPv4
deriving DecidableEq, Repr

/-- Route scopes used by kvm.go. -/
inductive Scope where
  | SCOPE_UNIVERSE
  | SCOPE_LINK
  | SCOPE_HOST
deriving DecidableEq, Repr

/-- Address family of a route. -/
inductive Family where
  | V4
  | V6
deriving DecidableEq, Repr

/-- A kernel route: owning link index, scope, family and destination. -/
structure Route where
  linkIndex : Nat
  scope : Scope
  family : Family
  dst : Option Addr
deriving DecidableEq, Repr

/-- The kernel networking state visible through netlink: links, the set of
administratively up link indices, per-link addresses, routes, bridge
memberships and the next fresh interface index. -/
structure NetlinkState where
  links : List Link
  ups : List Nat
  addrs : List (Nat × Addr)
  routes : List Route
  masters : List (Nat × Nat)
  nextIndex : Nat
deriving DecidableEq, Repr

/-- netlink.LinkByName. -/
def linkByName (st : NetlinkState) (name : String) : Option Link :=
  st.links.find? (fun l => l.name == name)

/-- netlink.LinkAdd: fails (EEXIST) when a link of that name exists,
otherwise appends a link with a fresh index. -/
def linkAdd (st : NetlinkState) (name : String) (kind : LinkKind) (mtu : Nat) :
    NetlinkState × Except String Link :=
  if (linkByName st name).isSome then (st, .error "EEXIST")
  else
    let l : Link := ⟨name, kind, mtu, st.nextIndex⟩
    ({ st with links := st.links ++ [l], nextIndex := st.nextIndex + 1 }, .ok l)

/-- netlink.LinkSetUp as a state change (its success is decided by the
environment oracle at the call sites). -/
def linkSetUp (st : NetlinkState) (idx : Nat) : NetlinkState :=
  if st.ups.contains idx then st else { st with ups := st.ups ++ [idx] }

/-- netlink.LinkDel: remove the link and everything attached to it. -/
def linkDel (st : NetlinkState) (idx : Nat) : NetlinkState :=
  { st with
    links := st.links.filter (fun l => l.index ≠ idx),
    ups := st.ups.filter (fun i => i ≠ idx),
    addrs := st.addrs.filter (fun p => p.1 ≠ idx),
    routes := st.routes.filter (fun r => r.linkIndex ≠ idx),
    masters := st.masters.filter (fun p => p.1 ≠ idx) }

/-- netlink.LinkSetMaster: record the bridge membership. -/
def linkSetMaster (st : NetlinkState) (idx bridx : Nat) : NetlinkState :=
  { st with masters := st.masters ++ [(idx, bridx)] }

/-- netlink.RouteList for one link and family. -/
def routeList (st : NetlinkState) (idx : Nat) (fam : Family) : List Route :=
  st.routes.filter (fun r => decide (r.linkIndex = idx ∧ r.family = fam))

/-- netlink.RouteAdd. -/
def routeAdd (st : NetlinkState) (r : Route) : NetlinkState :=
  { st with routes := st.routes ++ [r] }

/-- netlink.RouteDel: remove one matching route. -/
def routeDel (st : NetlinkState) (r : Route) : NetlinkState :=
  { st with routes := st.routes.erase r }

/-- addRoute of kvm.go: one link-scoped route to the pod address with a
full /32 mask. -/
def addRoute (st : NetlinkState) (link : Link) (podIP : IPv4) : NetlinkState :=
  routeAdd st
    { linkIndex := link.index, scope := .SCOPE_LINK, family := .V4,
      dst := some ⟨podIP, ⟨255, 255, 255, 255⟩⟩ }

/-- removeAllRoutesOnLink of kvm.go: list the IPv4 routes of the link and
delete each of them. -/
def removeAllRoutesOnLink (st : NetlinkState) (link : Link) : NetlinkState :=
  (routeList st link.index .V4).foldl routeDel st

/-- ensureHasAddr of kvm.go: succeed without change when the interface
already carries exactly the wanted address, fail when it carries a different
one, and add the address when it carries none. -/
def ensureHasAddr (st : NetlinkState) (link : Link) (ipn : Addr) :
    NetlinkState × Except String Unit :=
  let addrs := st.addrs.filter (fun p => p.1 = link.index)
  if addrs.isEmpty then
    ({ st with addrs := st.addrs ++ [(link.index, ipn)] }, .ok ())
  else if addrs.any (fun p => p.2 = ipn) then (st, .ok ())
  else (st, .error ("already has an IP address different from " ++ ipNetString ⟨ipn.ip, 0⟩))

/-- bridgeByName of kvm.go. -/
def bridgeByName (st : NetlinkState) (name : String) : Except String Link :=
  match linkByName st name with
  | none => .error ("could not lookup " ++ name)
  | some l =>
    match l.kind with
    | .bridge => .ok l
    | _ => .error (name ++ " already exists but is not a bridge")

/-- Per-call environment outcomes for the fallible operations that depend
on the surrounding system rather than on the modelled netlink state. -/
structure Env where
  createTapOk : Bool
  tapName : String
  setUpOk : Nat → Bool
  linkSetMasterOk : Bool
  fwdOk : Bool
  masqOk : Bool

/-- ensureBridgeIsUp of kvm.go: try to add the bridge; on a name conflict
accept an existing link only if it is a bridge; bring the device up. -/
def ensureBridgeIsUp (env : Env) (st : NetlinkState) (brName : String) (mtu : Nat) :
    NetlinkState × Except String Link :=
  match linkAdd st brName .bridge mtu with
  | (st1, .ok br) =>
    if env.setUpOk br.index then (linkSetUp st1 br.index, .ok br)
    else (st1, .error "link set up failed")
  | (_, .error _) =>
    match bridgeByName st brName with
    | .error e => (st, .error e)
    | .ok br =>
      if env.setUpOk br.index then (linkSetUp st br.index, .ok br)
      else (st, .error "link set up failed")

/-- setupTapDevice of kvm.go: create a persistent tap device whose name the
kernel derives from a pod-identifier template (the chosen name is supplied
by the environment), then bring it up. -/
def setupTapDevice (env : Env) (st : NetlinkState) : NetlinkState × Except String Link :=
  if ¬ env.createTapOk then (st, .error "tuntap persist")
  else
    match linkAdd st env.tapName .tap defaultMTU with
    | (_, .error _) => (st, .error "tuntap persist")
    | (st1, .ok link) =>
      if env.setUpOk link.index then (linkSetUp st1 link.index, .ok link)
      else (st1, .error ("cannot set link up " ++ link.name))

/-- MacVTapNetConf of kvm.go: the fields setupMacVTapDevice reads (master,
mode and the MTU of the embedded configuration, zero when unset). -/
structure MacVTapNetConf where
  master : String
  mode : String
  mtu : Nat
deriving DecidableEq, Repr

/-- The mode switch of setupMacVTapDevice: empty defaults to bridge mode;
bridge, private, vepa and passthru map to their netlink constants; anything
else is unsupported. -/
def macvlanModeOf : String → Option MacvlanMode
  | "" => some .MACVLAN_MODE_BRIDGE
  | "bridge" => some .MACVLAN_MODE_BRIDGE
  | "private" => some .MACVLAN_MODE_PRIVATE
  | "vepa" => some .MACVLAN_MODE_VEPA
  | "passthru" => some .MACVLAN_MODE_PASSTHRU
  | _ => none

/-- The deterministic macvtap interface name: a pod-identifier fragment of
four characters plus the position index of the network. -/
def macvtapIfaceName (podID : String) (i : Nat) : String :=
  "rkt-" ++ String.mk (podID.data.take 4) ++ "-vtap" ++ toString i

/-- setupMacVTapDevice of kvm.go: resolve the master, validate the mode,
resolve the MTU, create the macvtap link and bring it up; when bring-up
fails, delete the just-created link and return the error. -/
def setupMacVTapDevice (env : Env) (st : NetlinkState) (podID : String)
    (config : MacVTapNetConf) (interfaceNumber : Nat) :
    NetlinkState × Except String Link :=
  match linkByName st config.master with
  | none => (st, .error ("cannot find master device " ++ config.master))
  | some master =>
    match macvlanModeOf config.mode with
    | none => (st, .error ("unsupported macvtap mode: " ++ config.mode))
    | some mode =>
      let mtu := if config.mtu ≠ 0 then config.mtu else master.mtu
      let interfaceName := macvtapIfaceName podID interfaceNumber
      match linkAdd st interfaceName (.macvtap mode master.index) mtu with
      | (_, .error _) => (st, .error "cannot create macvtap interface")
      | (st1, .ok link) =>
        if env.setUpOk link.index then (linkSetUp st1 link.index, .ok link)
        else (linkDel st1 link.index, .error "cannot set up macvtap interface")

/-! ## Per-network provisioning (the switch body of kvmSetup) -/

/-- BridgeNetConf of kvm.go: the bridge name (default kvm-cni0), the MTU
(default 1500) and the gateway flag. -/
structure BridgeNetConf where
  brName : String
  mtu : Nat
  isGw : Bool
deriving DecidableEq, Repr

/-- Unmarshal the configuration bytes of a network over a BridgeNetConf preset
with the defaults. For the delegate dictionary synthesized by the flannel
transformer the bridge key is never present and mtu and isGateway are read
from the dictionary. -/
def unmarshalBridgeNetConf : ConfBytes → Except String BridgeNetConf
  | .bridgeDoc brName mtu isGw =>
    .ok ⟨brName.getD defaultBrName, mtu.getD defaultMTU, isGw.getD false⟩
  | .marshaled m =>
    let mtu : Nat :=
      match m.lookup "mtu" with
      | some (.jint k) => k
      | some (.jnum k) => k.toNat
      | _ => defaultMTU
    let isGw : Bool :=
      match m.lookup "isGateway" with
      | some (.jbool b) => b
      | _ => false
    .ok ⟨defaultBrName, mtu, isGw⟩
  | _ => .error "error parsing result"

/-- Unmarshal the configuration bytes of a network as a MacVTapNetConf. -/
def unmarshalMacVTapNetConf : ConfBytes → Except String MacVTapNetConf
  | .macvlanDoc master mode mtu => .ok ⟨master, mode, mtu⟩
  | _ => .error "error parsing result"

/-- The ptp arm of kvmSetup: create a tap device, record its name, run the
Address Allocator Bridge, put the gateway address on the tap, remove every
pre-existing IPv4 route on it and add the single direct route to the pod
address. The outer none is a Go nil dereference, unreachable after a
successful allocator run. -/
def kvmSetupPtpNet (env : Env) (exec : ExecOracle) (st : NetlinkState)
    (n : ActiveNet) : Option (NetlinkState × Except String ActiveNet) :=
  match setupTapDevice env st with
  | (st1, .error e) => some (st1, .error e)
  | (st1, .ok link) =>
    let ifName := link.name
    let n1 : ActiveNet := { n with runtime := { n.runtime with ifName := ifName } }
    match kvmSetupNetAddressing exec env.fwdOk n1 ifName with
    | (_, some e, _) => some (st1, .error e)
    | (n2, none, _) =>
      match n2.runtime.ip4, n2.runtime.mask with
      | some ip4, some mask =>
        match ensureHasAddr st1 link ⟨ip4.gateway, mask⟩ with
        | (st2, .error e) => some (st2, .error ("cannot add address to host tap device: " ++ e))
        | (st2, .ok _) =>
          let st3 := removeAllRoutesOnLink st2 link
          match n2.runtime.ip with
          | some podIP => some (addRoute st3 link podIP, .ok n2)
          | none => none
      | _, _ => none

/-- The bridge arm of kvmSetup: parse the bridge configuration, ensure the
bridge exists and is up, create a tap device, enslave it to the bridge,
record its name, run the Address Allocator Bridge, and when the gateway
flag is set put the gateway address on the bridge device. No route
manipulation happens on this arm. -/
def kvmSetupBridgeNet (env : Env) (exec : ExecOracle) (st : NetlinkState)
    (n : ActiveNet) : Option (NetlinkState × Except String ActiveNet) :=
  match unmarshalBridgeNetConf n.confBytes with
  | .error e => some (st, .error e)
  | .ok config =>
    match ensureBridgeIsUp env st config.brName config.mtu with
    | (st1, .error e) => some (st1, .error ("error in time of bridge setup: " ++ e))
    | (st1, .ok br) =>
      match setupTapDevice env st1 with
      | (st2, .error e) => some (st2, .error ("can not setup tap device: " ++ e))
      | (st2, .ok link) =>
        if ¬ env.linkSetMasterOk then
          some (st2, .error "can not add tap interface to bridge")
        else
          let st3 := linkSetMaster st2 link.index br.index
          let ifName := link.name
          let n1 : ActiveNet := { n with runtime := { n.runtime with ifName := ifName } }
          match kvmSetupNetAddressing exec env.fwdOk n1 ifName with
          | (_, some e, _) => some (st3, .error e)
          | (n2, none, _) =>
            if config.isGw then
              match n2.runtime.ip4, n2.runtime.mask with
              | some ip4, some mask =>
                match ensureHasAddr st3 br ⟨ip4.gateway, mask⟩ with
                | (st4, .error e) =>
                  some (st4, .error ("cannot add address to host bridge device: " ++ e))
                | (st4, .ok _) => some (st4, .ok n2)
              | _, _ => none
            else some (st3, .ok n2)

/-- The macvlan arm of kvmSetup: parse the macvtap configuration, create
the macvtap device, record its name and run the Address Allocator Bridge. -/
def kvmSetupMacvlanNet (env : Env) (exec : ExecOracle) (st : NetlinkState)
    (podID : String) (i : Nat) (n : ActiveNet) :
    Option (NetlinkState × Except String ActiveNet) :=
  match unmarshalMacVTapNetConf n.confBytes with
  | .error e => some (st, .error e)
  | .ok config =>
    match setupMacVTapDevice env st podID config i with
    | (st1, .error e) => some (st1, .error e)
    | (st1, .ok link) =>
      let ifName := link.name
      let n1 : ActiveNet := { n with runtime := { n.runtime with ifName := ifName } }
      match kvmSetupNetAddressing exec env.fwdOk n1 ifName with
      | (_, some e, _) => some (st1, .error e)
      | (n2, none, _) => some (st1, .ok n2)

/-- The masquerade step that closes each loop iteration of kvmSetup: when
the descriptor requests masquerading, install the masquerade rule (an
iptables operation outside the netlink state, its outcome decided by the
environment). -/
def kvmSetupMasqStep (env : Env) (r : Option (NetlinkState × Except String ActiveNet)) :
    Option (NetlinkState × Except String ActiveNet) :=
  match r with
  | none => none
  | some (st, .error e) => some (st, .error e)
  | some (st, .ok n) =>
    if n.conf.ipMasq then
      if env.masqOk then some (st, .ok n) else some (st, .error "masq setup failed")
    else some (st, .ok n)

/-- One iteration of the loop of kvmSetup for the network at position i:
transform a flannel network first, then dispatch on the (possibly rewritten)
declared type; unsupported types fail without touching the kernel state;
afterwards run the masquerade step. -/
def kvmSetupNet (env : Env) (exec : ExecOracle)
    (files : String → Option (List String)) (st : NetlinkState)
    (podID : String) (i : Nat) (n : ActiveNet) :
    Option (NetlinkState × Except String ActiveNet) :=
  match (if n.conf.type = "flannel" then kvmTransformFlannelNetwork files n
         else some (.ok n)) with
  | none => none
  | some (.error e) =>
    some (st, .error ("cannot transform flannel network into basic network: " ++ e))
  | some (.ok n') =>
    kvmSetupMasqStep env
      (match n'.conf.type with
       | "ptp" => kvmSetupPtpNet env exec st n'
       | "bridge" => kvmSetupBridgeNet env exec st n'
       | "macvlan" => kvmSetupMacvlanNet env exec st podID i n'
       | _ => some (st, .error ("network have unsupported type: " ++ n'.conf.type)))

/-! ## Teardown Coordinator -/

/-- One attempted teardown action or log line, in order of occurrence. -/
inductive TAction where
  | removeTap (ifName : String)
  | linkLookup (ifName : String)
  | linkDelAttempt (ifName : String)
  | execPlugin (conf : NetConf) (cmd : String) (ifName : String)
  | teardownIPMasq (podID : String) (confName : String)
  | unforwardPortsAttempt
  | logged (msg : String)
deriving DecidableEq, Repr

/-- The outcomes chosen by the environment for the fallible operations of teardown. -/
structure TEnv where
  linkByNameOk : String → Bool
  linkDelOk : String → Bool
  execOk : Invocation → Bool
  masqOk : String → Bool
  unforwardOk : Bool

/-- The common tail of one teardown loop iteration: overwrite the type of the descriptor with its allocator sub-type (never restored), invoke the
plugin with command DEL (failure only logged), then remove the masquerade
rule when the flag is set (failure only logged). -/
def teardownKvmNetTail (env : TEnv) (podID : String) (an : ActiveNet)
    (tr : List TAction) : ActiveNet × List TAction :=
  let an' : ActiveNet := { an with conf := { an.conf with type := an.conf.ipam.type } }
  let inv : Invocation := ⟨an'.conf, an'.confBytes, "DEL", an'.runtime.ifName⟩
  let tr1 := tr ++ [.execPlugin an'.conf "DEL" an'.runtime.ifName] ++
    (if env.execOk inv then [] else [.logged "error executing network plugin"])
  if an'.conf.ipMasq then
    (an', tr1 ++ [.teardownIPMasq podID an'.conf.name] ++
      (if env.masqOk an'.conf.name then [] else [.logged "error on removing masquerading"]))
  else (an', tr1)

/-- One iteration of the teardown loop (the body of teardownKvmNets):
ptp and bridge descriptors have their tap removed with the result ignored;
macvlan descriptors look up and delete their link, and on either failure the
iteration stops for this descriptor (continue); unsupported types only log.
Supported descriptors that pass device removal run the common tail. -/
def teardownKvmNet (env : TEnv) (podID : String) (an : ActiveNet) :
    ActiveNet × List TAction :=
  match an.conf.type with
  | "ptp" => teardownKvmNetTail env podID an [.removeTap an.runtime.ifName]
  | "bridge" => teardownKvmNetTail env podID an [.removeTap an.runtime.ifName]
  | "macvlan" =>
    if ¬ env.linkByNameOk an.runtime.ifName then
      (an, [.linkLookup an.runtime.ifName, .logged "cannot find link"])
    else if ¬ env.linkDelOk an.runtime.ifName then
      (an, [.linkLookup an.runtime.ifName, .linkDelAttempt an.runtime.ifName,
            .logged "cannot remove link"])
    else
      teardownKvmNetTail env podID an
        [.linkLookup an.runtime.ifName, .linkDelAttempt an.runtime.ifName]
  | _ => (an, [.logged ("unsupported network type: " ++ an.conf.type)])

/-- teardownKvmNets: iterate the loop body over every descriptor of the
aggregate, concatenating the attempted actions. Total by construction: no
error is ever returned. -/
def teardownKvmNets (env : TEnv) (podID : String) :
    List ActiveNet → List ActiveNet × List TAction
  | [] => ([], [])
  | an :: rest =>
    let (an', tr) := teardownKvmNet env podID an
    let (rest', trs) := teardownKvmNets env podID rest
    (an' :: rest', tr ++ trs)

/-- kvmTeardown: remove the forwarded-port rules (failure only logged),
then tear down every network. Total by construction. -/
def kvmTeardown (env : TEnv) (podID : String) (nets : List ActiveNet) :
    List ActiveNet × List TAction :=
  let tr0 : List TAction :=
    [.unforwardPortsAttempt] ++
      (if env.unforwardOk then [] else [.logged "error removing forwarded ports (kvm)"])
  let (nets', tr) := teardownKvmNets env podID nets
  (nets', tr0 ++ tr)

/-! ## Concrete inputs used by counterexamples and witnesses -/

/-- A fresh NetInfo, as in a descriptor with zero runtime state. -/
def blankRuntime : NetInfo := ⟨"", none, none, none, none⟩

/-- The empty kernel state. -/
def emptyNetlink : NetlinkState := ⟨[], [], [], [], [], 0⟩

/-- An environment where every kernel and external operation succeeds. -/
def allOkEnv : Env :=
  { createTapOk := true, tapName := "rkt-0a1b-tap0", setUpOk := fun _ => true,
    linkSetMasterOk := true, fwdOk := true, masqOk := true }

/-- A plugin oracle that always returns the IPv4 block
10.1.17.5 mask 255.255.255.0 gateway 10.1.17.1. -/
def goodExec : ExecOracle :=
  fun _ => .ok (.good (some ⟨⟨10, 1, 17, 5⟩, ⟨255, 255, 255, 0⟩, ⟨10, 1, 17, 1⟩⟩))

/-- An empty abstract file system. -/
def noFiles : String → Option (List String) := fun _ => none

/-- A bridge-type network descriptor with an all-defaults configuration. -/
def bridgeNet0 : ActiveNet :=
  { confBytes := .bridgeDoc none none none,
    conf := { name := "net0", type := "bridge", ipMasq := false, mtu := 0,
              ipam := ⟨"host-local"⟩ },
    runtime := blankRuntime }

/-- Projection used to observe the result of a bridge-path setup run: the
IPv4 routes on the newly created tap interface (index 1 in the run below)
and the pod address the allocator assigned. -/
def bridgeRunView (p : NetlinkState × Except String ActiveNet) :
    List Route × Option IPv4 :=
  (routeList p.1 1 .V4,
   match p.2 with
   | .ok n => n.runtime.ip
   | .error _ => none)

/-- A teardown environment where every operation succeeds. -/
def allOkTEnv : TEnv :=
  { linkByNameOk := fun _ => true, linkDelOk := fun _ => true,
    execOk := fun _ => true, masqOk := fun _ => true, unforwardOk := true }

/-- A teardown environment where looking a link up by name fails. -/
def lookupFailTEnv : TEnv :=
  { linkByNameOk := fun _ => false, linkDelOk := fun _ => true,
    execOk := fun _ => true, masqOk := fun _ => true, unforwardOk := true }

/-- A ptp descriptor with a host-local allocator, after provisioning. -/
def ptpNet0 : ActiveNet :=
  { confBytes := .bridgeDoc none none none,
    conf := { name := "net0", type := "ptp", ipMasq := false, mtu := 0,
              ipam := ⟨"host-local"⟩ },
    runtime := ⟨"tap0", none, none, none, none⟩ }

/-- A macvlan descriptor with the masquerade flag set, after provisioning. -/
def macvlanNet0 : ActiveNet :=
  { confBytes := .macvlanDoc "eth0" "bridge" 0,
    conf := { name := "net1", type := "macvlan", ipMasq := true, mtu := 0,
              ipam := ⟨"host-local"⟩ },
    runtime := ⟨"vtap0", none, none, none, none⟩ }

/-- The abstract file system holding the lease file of the C4 scenario. -/
def c4files : String → Option (List String) := fun fn =>
  if fn = "/run/flannel/subnet.env" then
    some ["FLANNEL_NETWORK=10.1.0.0/16", "FLANNEL_SUBNET=10.1.17.0/24",
          "FLANNEL_MTU=1472", "FLANNEL_IPMASQ=true"]
  else none

/-- The overlay descriptor of configuration name rktnet type flannel with
no user-supplied delegate. -/
def c4overlay : ActiveNet :=
  { confBytes := .overlayDoc ⟨"rktnet", "flannel", none, none⟩,
    conf := { name := "rktnet", type := "flannel", ipMasq := false, mtu := 0,
              ipam := ⟨""⟩ },
    runtime := blankRuntime }

/-- An abstract file system whose lease file consists of the single line
FLANNEL_MTU with no separator. -/
def c10files : String → Option (List String) := fun fn =>
  if fn = defaultSubnetFile then some ["FLANNEL_MTU"] else none

/-- An overlay document whose user-supplied delegate carries a name key. -/
def c6doc : FlannelConfDoc :=
  ⟨"rktnet", "flannel", none, some [("name", .jstr "x")]⟩

/-- The overlay descriptor built over that document. -/
def c6an : ActiveNet :=
  { confBytes := .overlayDoc c6doc,
    conf := { name := "rktnet", type := "flannel", ipMasq := false, mtu := 0,
              ipam := ⟨""⟩ },
    runtime := blankRuntime }

/-- A macvlan configuration declaring the unsupported mode unknown. -/
def c7config : MacVTapNetConf := ⟨"eth0", "unknown", 0⟩

/-- A kernel state holding only the master device eth0. -/
def c7st : NetlinkState := ⟨[⟨"eth0", .other "device", 1500, 0⟩], [], [], [], [], 1⟩

/-- A kernel state already holding a bridge named kvm-cni0. -/
def c8st : NetlinkState := ⟨[⟨"kvm-cni0", .bridge, 1500, 0⟩], [], [], [], [], 1⟩

/-- A kernel state holding the master device and a link occupying the name
of no macvtap interface, with bring-up failing on the next fresh index. -/
def c9env : Env :=
  { createTapOk := true, tapName := "rkt-0a1b-tap0", setUpOk := fun _ => false,
    linkSetMasterOk := true, fwdOk := true, masqOk := true }

/-- A macvlan configuration in bridge mode over master eth0. -/
def c9config : MacVTapNetConf := ⟨"eth0", "bridge", 0⟩

/-- The kernel state after a successful ptp provisioning run of ptpNet0
over the empty state: the tap link, its gateway address, and the single
/32 pod route. -/
def c1stF : NetlinkState :=
  { links := [⟨"rkt-0a1b-tap0", .tap, 1500, 0⟩], ups := [0],
    addrs := [(0, ⟨⟨10, 1, 17, 1⟩, ⟨255, 255, 255, 0⟩⟩)],
    routes := [⟨0, .SCOPE_LINK, .V4, some ⟨⟨10, 1, 17, 5⟩, ⟨255, 255, 255, 255⟩⟩⟩],
    masters := [], nextIndex := 1 }

/-- The descriptor after that run: interface recorded, all four runtime
addressing fields populated. -/
def c1nF : ActiveNet :=
  { confBytes := .bridgeDoc none none none,
    conf := { name := "net0", type := "ptp", ipMasq := false, mtu := 0,
              ipam := ⟨"host-local"⟩ },
    runtime := ⟨"rkt-0a1b-tap0", some ⟨10, 1, 17, 5⟩, some ⟨255, 255, 255, 0⟩,
                some ⟨10, 1, 17, 1⟩,
                some ⟨⟨10, 1, 17, 5⟩, ⟨255, 255, 255, 0⟩, ⟨10, 1, 17, 1⟩⟩⟩ }

/-! ## Theorems -/

/-- C4: for lease values FLANNEL_NETWORK=10.1.0.0/16,
FLANNEL_SUBNET=10.1.17.0/24, FLANNEL_MTU=1472, FLANNEL_IPMASQ=true and the
overlay configuration of name rktnet and type flannel with no user-supplied
delegate, the transformer produces a delegate of name rktnet, type bridge,
ipMasq false, mtu 1472, isGateway true, with a host-local ipam block scoped
to subnet 10.1.17.0/24 carrying exactly one route whose destination is
10.1.0.0/16. -/
theorem kvmTransformFlannelNetwork_c4_scenario :
    kvmTransformFlannelNetwork c4files c4overlay =
      some (.ok
        { confBytes := .marshaled
            [("name", .jstr "rktnet"), ("type", .jstr "bridge"),
             ("ipMasq", .jbool false), ("mtu", .jint 1472),
             ("isGateway", .jbool true),
             ("ipam", .jipam ⟨"host-local", "10.1.17.0/24", [⟨⟨10, 1, 0, 0⟩, 16⟩]⟩)],
          conf := { name := "rktnet", type := "bridge", ipMasq := false,
                    mtu := 1472, ipam := ⟨"host-local"⟩ },
          runtime := ⟨"", none, none, none, some IPConfig4.zero⟩ }) := by
  rfl

/-- C10: the lease-file reader is not total — on a file consisting of the
single line FLANNEL_MTU (a recognized key with no separator) the scanner
indexes past the end of the split slice, a runtime panic, modelled as none. -/
theorem loadFlannelSubnetEnv_panics_on_keyed_line_without_separator :
    loadFlannelSubnetEnv c10files defaultSubnetFile = none := by
  rfl

/-- C1 counterexample: a successful setup of a bridge-type network assigns
the pod address 10.1.17.5 but installs no route at all on the newly created
tap interface (index 1) — refuting the claim that the ptp-and-bridge paths
both scrub the IPv4 routes of the interface and add exactly one /32 route to the
pod address. -/
theorem kvmSetupNet_bridge_installs_no_route :
    (kvmSetupNet allOkEnv goodExec noFiles emptyNetlink "0a1b2c3d" 0
        bridgeNet0).map bridgeRunView =
      some ([], some ⟨10, 1, 17, 5⟩) := by
  rfl

/-- C2 counterexample: the teardown DEL invocation overwrites the declared type ptp of the descriptor with its allocator sub-type host-local and
never restores it — after teardown the type field of the descriptor still holds
the allocator type, refuting the claim that both the ADD and the DEL
invocation restore the original type before returning. -/
theorem teardownKvmNet_does_not_restore_type :
    (teardownKvmNet allOkTEnv "uuid" ptpNet0).1.conf.type = "host-local" ∧
    ptpNet0.conf.type = "ptp" := by
  exact ⟨rfl, rfl⟩

/-- C3 counterexample: tearing down a macvlan descriptor whose link lookup
fails produces only the lookup attempt and a log line — the allocator DEL
release and the masquerade-rule removal (its flag is set) are skipped,
refuting the claim that teardown attempts every applicable cleanup action
for every descriptor. -/
theorem kvmTeardown_macvlan_lookup_failure_skips_release :
    kvmTeardown lookupFailTEnv "uuid" [macvlanNet0] =
      ([macvlanNet0],
       [.unforwardPortsAttempt, .linkLookup "vtap0", .logged "cannot find link"]) := by
  rfl

/-- C5: the address-allocation step is all-or-nothing on the runtime state of the descriptor — on any failure (forwarding, plugin error, unparseable
output, missing IPv4 block) the runtime block is returned unchanged, and on
success the four runtime fields are all written from the returned IPv4
block in one step. -/
theorem kvmSetupNetAddressing_all_or_nothing (exec : ExecOracle) (fwdOk : Bool)
    (n : ActiveNet) (ifName : String) :
    ((kvmSetupNetAddressing exec fwdOk n ifName).2.1.isSome →
      (kvmSetupNetAddressing exec fwdOk n ifName).1.runtime = n.runtime) ∧
    ((kvmSetupNetAddressing exec fwdOk n ifName).2.1 = none →
      ∃ ip4 : IPConfig4,
        (kvmSetupNetAddressing exec fwdOk n ifName).1.runtime =
          { n.runtime with ip := some ip4.ip, mask := some ip4.mask,
                           hostIP := some ip4.gateway, ip4 := some ip4 }) := by
  unfold kvmSetupNetAddressing
  split
  · exact ⟨fun _ => rfl, by simp⟩
  · dsimp only
    split
    · exact ⟨fun _ => rfl, by simp⟩
    · exact ⟨fun _ => rfl, by simp⟩
    · exact ⟨fun _ => rfl, by simp⟩
    · rename_i ip4 _
      exact ⟨by simp, fun _ => ⟨ip4, rfl⟩⟩

/-- Witness for C5: a successful concrete run writes all four runtime
fields from the IPv4 block of the allocator. -/
theorem kvmSetupNetAddressing_all_or_nothing_witness :
    ∃ ip4 : IPConfig4,
      (kvmSetupNetAddressing goodExec true ptpNet0 "tap0").1.runtime =
        { ptpNet0.runtime with ip := some ip4.ip, mask := some ip4.mask,
                               hostIP := some ip4.gateway, ip4 := some ip4 } :=
  (kvmSetupNetAddressing_all_or_nothing goodExec true ptpNet0 "tap0").2 rfl

/-- C2 amended: the setup ADD invocation runs with the type of the descriptor
substituted by its allocator sub-type and the invocation wrapper returns
the parsed configuration unchanged (type restored, every other field
untouched) on success and failure alike; the teardown DEL invocation uses
the same substitution but never restores it — the type field of the descriptor
permanently holds the allocator sub-type afterwards. -/
theorem kvmSetupNetAddressing_substitution_discipline (exec : ExecOracle)
    (fwdOk : Bool) (n : ActiveNet) (ifName : String) (env : TEnv)
    (podID : String) (an : ActiveNet) :
    (kvmSetupNetAddressing exec fwdOk n ifName).1.conf = n.conf ∧
    (fwdOk = true →
      (kvmSetupNetAddressing exec fwdOk n ifName).2.2 =
        [⟨{ n.conf with type := n.conf.ipam.type }, n.confBytes, "ADD", ifName⟩]) ∧
    (an.conf.type = "ptp" ∨ an.conf.type = "bridge" →
      (teardownKvmNet env podID an).1.conf =
        { an.conf with type := an.conf.ipam.type } ∧
      TAction.execPlugin { an.conf with type := an.conf.ipam.type } "DEL"
        an.runtime.ifName ∈ (teardownKvmNet env podID an).2) := by
  refine ⟨?_, ?_, ?_⟩
  · unfold kvmSetupNetAddressing
    split
    · rfl
    · dsimp only
      split <;> rfl
  · intro h
    subst h
    unfold kvmSetupNetAddressing
    split
    · rename_i h'
      exact absurd rfl h'
    · dsimp only
      split <;> rfl
  · intro hT
    have hmain : teardownKvmNet env podID an =
        teardownKvmNetTail env podID an [.removeTap an.runtime.ifName] := by
      rcases hT with h | h <;> simp [teardownKvmNet, h]
    rw [hmain]
    unfold teardownKvmNetTail
    dsimp only
    constructor
    · split <;> rfl
    · split <;> simp [List.mem_append]

/-- Witness for C2: on a concrete ptp descriptor with a host-local
allocator, the ADD trace holds exactly the substituted invocation and the
descriptor returned by teardown keeps the allocator type. -/
theorem kvmSetupNetAddressing_substitution_discipline_witness :
    (kvmSetupNetAddressing goodExec true ptpNet0 "tap0").2.2 =
      [⟨{ ptpNet0.conf with type := ptpNet0.conf.ipam.type },
        ptpNet0.confBytes, "ADD", "tap0"⟩] ∧
    (teardownKvmNet allOkTEnv "uuid" ptpNet0).1.conf =
      { ptpNet0.conf with type := ptpNet0.conf.ipam.type } :=
  ⟨(kvmSetupNetAddressing_substitution_discipline goodExec true ptpNet0 "tap0"
      allOkTEnv "uuid" ptpNet0).2.1 rfl,
   ((kvmSetupNetAddressing_substitution_discipline goodExec true ptpNet0 "tap0"
      allOkTEnv "uuid" ptpNet0).2.2 (Or.inl rfl)).1⟩

/-- Unfolding lemma: the teardown loop processes the head descriptor and
prepends its actions. -/
theorem teardownKvmNets_cons (env : TEnv) (podID : String) (a : ActiveNet)
    (rest : List ActiveNet) :
    teardownKvmNets env podID (a :: rest) =
      ((teardownKvmNet env podID a).1 :: (teardownKvmNets env podID rest).1,
       (teardownKvmNet env podID a).2 ++ (teardownKvmNets env podID rest).2) := rfl

/-- The full teardown trace is the port-forward removal segment followed by
the per-descriptor segments. -/
theorem kvmTeardown_trace (env : TEnv) (podID : String) (nets : List ActiveNet) :
    (kvmTeardown env podID nets).2 =
      ([.unforwardPortsAttempt] ++
        (if env.unforwardOk then []
         else [.logged "error removing forwarded ports (kvm)"])) ++
      (teardownKvmNets env podID nets).2 := rfl

/-- Any action attempted for a descriptor of the aggregate occurs in the
aggregate teardown trace. -/
theorem mem_teardownKvmNets_trace (env : TEnv) (podID : String) (x : TAction) :
    ∀ (nets : List ActiveNet) (an : ActiveNet), an ∈ nets →
      x ∈ (teardownKvmNet env podID an).2 →
      x ∈ (teardownKvmNets env podID nets).2 := by
  intro nets
  induction nets with
  | nil => intro an h; cases h
  | cons a rest ih =>
    intro an h hx
    rw [teardownKvmNets_cons]
    rcases List.mem_cons.mp h with h | h
    · subst h
      exact List.mem_append_left _ hx
    · exact List.mem_append_right _ (ih an h hx)

/-- The per-descriptor attempts of one teardown iteration: ptp and bridge
descriptors always get a device removal, a DEL release with the substituted
type, and (when flagged) a masquerade removal; macvlan descriptors always
get a link lookup. -/
theorem teardownKvmNet_attempts (env : TEnv) (podID : String) (an : ActiveNet) :
    ((an.conf.type = "ptp" ∨ an.conf.type = "bridge") →
      TAction.removeTap an.runtime.ifName ∈ (teardownKvmNet env podID an).2 ∧
      TAction.execPlugin { an.conf with type := an.conf.ipam.type } "DEL"
        an.runtime.ifName ∈ (teardownKvmNet env podID an).2 ∧
      (an.conf.ipMasq = true →
        TAction.teardownIPMasq podID an.conf.name ∈ (teardownKvmNet env podID an).2)) ∧
    (an.conf.type = "macvlan" →
      TAction.linkLookup an.runtime.ifName ∈ (teardownKvmNet env podID an).2) := by
  constructor
  · intro hT
    have hmain : teardownKvmNet env podID an =
        teardownKvmNetTail env podID an [.removeTap an.runtime.ifName] := by
      rcases hT with h | h <;> simp [teardownKvmNet, h]
    rw [hmain]
    unfold teardownKvmNetTail
    dsimp only
    refine ⟨?_, ?_, ?_⟩
    · split <;> simp [List.mem_append]
    · split <;> simp [List.mem_append]
    · intro hM
      split
      · simp [List.mem_append]
      · rename_i hc
        exact absurd hM (by simpa using hc)
  · intro hT
    simp only [teardownKvmNet, hT]
    split
    · simp
    · split
      · simp
      · unfold teardownKvmNetTail
        dsimp only
        split <;> simp

/-- The teardown loop returns one (possibly updated) descriptor per input
descriptor: no descriptor is dropped. -/
theorem teardownKvmNets_length (env : TEnv) (podID : String) :
    ∀ nets : List ActiveNet,
      ((teardownKvmNets env podID nets).1).length = nets.length := by
  intro nets
  induction nets with
  | nil => rfl
  | cons a rest ih => rw [teardownKvmNets_cons]; simpa using ih

/-- C3 amended: teardown is total (it returns an action trace and the full
list of descriptors, never an error), always attempts the port-forward rule
removal, and for every descriptor of the aggregate attempts its device
removal; for ptp and bridge descriptors the allocator DEL release and (when
the flag is set) the masquerade-rule removal are always attempted as well,
while for a macvlan descriptor whose link lookup or deletion fails the
remaining cleanup actions of that descriptor are skipped — only the lookup
attempt is guaranteed. -/
theorem kvmTeardown_best_effort (env : TEnv) (podID : String)
    (nets : List ActiveNet) (an : ActiveNet) :
    TAction.unforwardPortsAttempt ∈ (kvmTeardown env podID nets).2 ∧
    ((kvmTeardown env podID nets).1).length = nets.length ∧
    (an ∈ nets →
      ((an.conf.type = "ptp" ∨ an.conf.type = "bridge") →
        TAction.removeTap an.runtime.ifName ∈ (kvmTeardown env podID nets).2 ∧
        TAction.execPlugin { an.conf with type := an.conf.ipam.type } "DEL"
          an.runtime.ifName ∈ (kvmTeardown env podID nets).2 ∧
        (an.conf.ipMasq = true →
          TAction.teardownIPMasq podID an.conf.name ∈ (kvmTeardown env podID nets).2)) ∧
      (an.conf.type = "macvlan" →
        TAction.linkLookup an.runtime.ifName ∈ (kvmTeardown env podID nets).2)) := by
  have hlift : ∀ x : TAction, an ∈ nets →
      x ∈ (teardownKvmNet env podID an).2 → x ∈ (kvmTeardown env podID nets).2 := by
    intro x hmem hx
    rw [kvmTeardown_trace]
    exact List.mem_append_right _ (mem_teardownKvmNets_trace env podID x nets an hmem hx)
  refine ⟨?_, ?_, ?_⟩
  · rw [kvmTeardown_trace]
    exact List.mem_append_left _ (List.mem_append_left _ (List.mem_singleton.mpr rfl))
  · exact teardownKvmNets_length env podID nets
  · intro hmem
    constructor
    · intro hT
      obtain ⟨h1, h2, h3⟩ := (teardownKvmNet_attempts env podID an).1 hT
      exact ⟨hlift _ hmem h1, hlift _ hmem h2, fun hM => hlift _ hmem (h3 hM)⟩
    · intro hT
      exact hlift _ hmem ((teardownKvmNet_attempts env podID an).2 hT)

/-- Witness for C3: in a concrete aggregate of one ptp and one macvlan
descriptor, the trace holds the port-forward removal, the tap removal of the ptp descriptor,, DEL release and masquerade removal attempt, and the link lookup of the macvlan
descriptor. -/
theorem kvmTeardown_best_effort_witness :
    TAction.removeTap "tap0" ∈ (kvmTeardown allOkTEnv "uuid" [ptpNet0, macvlanNet0]).2 ∧
    TAction.linkLookup "vtap0" ∈ (kvmTeardown allOkTEnv "uuid" [ptpNet0, macvlanNet0]).2 :=
  ⟨((kvmTeardown_best_effort allOkTEnv "uuid" [ptpNet0, macvlanNet0] ptpNet0).2.2
      (by simp) |>.1 (Or.inl rfl)).1,
   (kvmTeardown_best_effort allOkTEnv "uuid" [ptpNet0, macvlanNet0] macvlanNet0).2.2
      (by simp) |>.2 rfl⟩

/-- C6: an overlay network whose user-supplied delegate dictionary carries
a name key or an ipam key, or whose type key holds a non-string, is
rejected by the transformer with a configuration error, and the per-network
setup step then fails leaving the kernel state untouched — no kernel object
is created for that network. -/
theorem kvmTransformFlannelNetwork_rejects_bad_delegate
    (files : String → Option (List String)) (doc : FlannelConfDoc)
    (d : DelegateMap) (fenv : SubnetEnv) (an : ActiveNet) :
    an.confBytes = .overlayDoc doc →
    doc.delegate = some d →
    loadFlannelSubnetEnv files (doc.subnetFile.getD defaultSubnetFile) =
      some (.ok fenv) →
    (hasKey d "name" = true ∨ hasKey d "ipam" = true ∨
      (hasKey d "type" = true ∧ isString (d.lookup "type") = false)) →
    ∃ e, kvmTransformFlannelNetwork files an = some (.error e) ∧
      (an.conf.type = "flannel" →
        ∀ (env : Env) (exec : ExecOracle) (st : NetlinkState) (podID : String) (i : Nat),
          kvmSetupNet env exec files st podID i an =
            some (st, .error ("cannot transform flannel network into basic network: " ++ e))) := by
  intro hB hD hL hbad
  have key : ∃ e, kvmTransformFlannelNetwork files an = some (.error e) := by
    by_cases h1 : (hasKey d "type" && !isString (d.lookup "type")) = true
    · exact ⟨"delegate dictionary, if present, must have string type field",
        by simp [kvmTransformFlannelNetwork, hB, loadFlannelNetConf, hL, hD, h1]⟩
    · by_cases h2 : hasKey d "name" = true
      · exact ⟨"delegate dictionary must not have name field, it will be set by flannel",
          by simp [kvmTransformFlannelNetwork, hB, loadFlannelNetConf, hL, hD, h1, h2]⟩
      · have h3 : hasKey d "ipam" = true := by
          rcases hbad with h | h | ⟨ha, hb⟩
          · exact absurd h h2
          · exact h
          · exact absurd (by simp [ha, hb]) h1
        exact ⟨"delegate dictionary must not have ipam field, it will be set by flannel",
          by simp [kvmTransformFlannelNetwork, hB, loadFlannelNetConf, hL, hD, h1, h2, h3]⟩
  obtain ⟨e, he⟩ := key
  refine ⟨e, he, fun hF env exec st podID i => ?_⟩
  simp [kvmSetupNet, hF, he]

/-- Witness for C6: the concrete overlay descriptor whose delegate declares
a name key is rejected by the transformer and the setup step fails with the
kernel state unchanged. -/
theorem kvmTransformFlannelNetwork_rejects_bad_delegate_witness :
    ∃ e, kvmTransformFlannelNetwork c4files c6an = some (.error e) ∧
      kvmSetupNet allOkEnv goodExec c4files emptyNetlink "0a1b2c3d" 0 c6an =
        some (emptyNetlink,
          .error ("cannot transform flannel network into basic network: " ++ e)) := by
  obtain ⟨e, he, hsetup⟩ :=
    kvmTransformFlannelNetwork_rejects_bad_delegate c4files c6doc
      [("name", .jstr "x")]
      ⟨some ⟨⟨10, 1, 0, 0⟩, 16⟩, some ⟨⟨10, 1, 17, 0⟩, 24⟩, 1472, true⟩ c6an
      rfl rfl rfl (Or.inl rfl)
  exact ⟨e, he, hsetup rfl allOkEnv goodExec emptyNetlink "0a1b2c3d" 0⟩

/-- C7: a macvlan configuration whose declared mode is outside the
enumerated set (empty, bridge, private, vepa, passthru) makes macvtap
device setup fail with the kernel state unchanged — no link is created —
and, whenever the master device resolves, the error is the unsupported-mode
error. -/
theorem setupMacVTapDevice_rejects_unknown_mode (env : Env) (st : NetlinkState)
    (podID : String) (config : MacVTapNetConf) (i : Nat) :
    macvlanModeOf config.mode = none →
    (setupMacVTapDevice env st podID config i).1 = st ∧
    (∃ e, (setupMacVTapDevice env st podID config i).2 = .error e) ∧
    ((linkByName st config.master).isSome = true →
      (setupMacVTapDevice env st podID config i).2 =
        .error ("unsupported macvtap mode: " ++ config.mode)) := by
  intro hmode
  cases hM : linkByName st config.master with
  | none =>
    refine ⟨?_, ⟨"cannot find master device " ++ config.master, ?_⟩, ?_⟩ <;>
      simp [setupMacVTapDevice, hM]
  | some master =>
    refine ⟨?_, ⟨"unsupported macvtap mode: " ++ config.mode, ?_⟩, fun _ => ?_⟩ <;>
      simp [setupMacVTapDevice, hM, hmode]

/-- Witness for C7: mode unknown over an existing master is rejected with
the unsupported-mode error and the state is unchanged. -/
theorem setupMacVTapDevice_rejects_unknown_mode_witness :
    (setupMacVTapDevice allOkEnv c7st "0a1b2c3d" c7config 0).1 = c7st ∧
    (setupMacVTapDevice allOkEnv c7st "0a1b2c3d" c7config 0).2 =
      .error ("unsupported macvtap mode: " ++ "unknown") :=
  ⟨(setupMacVTapDevice_rejects_unknown_mode allOkEnv c7st "0a1b2c3d" c7config 0 rfl).1,
   (setupMacVTapDevice_rejects_unknown_mode allOkEnv c7st "0a1b2c3d" c7config 0 rfl).2.2 rfl⟩

/-- Bringing a link up does not change the link table. -/
theorem linkByName_linkSetUp (st : NetlinkState) (i : Nat) (name : String) :
    linkByName (linkSetUp st i) name = linkByName st name := by
  unfold linkSetUp linkByName
  split <;> rfl

/-- Bringing a link up twice equals bringing it up once. -/
theorem linkSetUp_idem (st : NetlinkState) (i : Nat) :
    linkSetUp (linkSetUp st i) i = linkSetUp st i := by
  by_cases h : i ∈ st.ups
  · simp [linkSetUp, h]
  · simp [linkSetUp, h]

/-- When a bridge of the wanted name already exists, ensuring it succeeds
as a no-op creation returning that same device and only marking it up. -/
theorem ensureBridgeIsUp_existing (env : Env) (st : NetlinkState)
    (brName : String) (mtu : Nat) (l : Link) (hL : linkByName st brName = some l)
    (hk : l.kind = .bridge) (hup : env.setUpOk l.index = true) :
    ensureBridgeIsUp env st brName mtu = (linkSetUp st l.index, .ok l) := by
  unfold ensureBridgeIsUp linkAdd bridgeByName
  simp [hL, hk, hup]

/-- When a link of the wanted name exists but is not a bridge, ensuring the
bridge fails with the naming-conflict error and no state change. -/
theorem ensureBridgeIsUp_conflict (env : Env) (st : NetlinkState)
    (brName : String) (mtu : Nat) (l : Link) (hL : linkByName st brName = some l)
    (hk : l.kind ≠ .bridge) :
    ensureBridgeIsUp env st brName mtu =
      (st, .error (brName ++ " already exists but is not a bridge")) := by
  unfold ensureBridgeIsUp linkAdd bridgeByName
  cases hkind : l.kind with
  | bridge => exact absurd hkind hk
  | tap => simp [hL, hkind]
  | macvtap m p => simp [hL, hkind]
  | other k => simp [hL, hkind]

/-- C8: ensuring the bridge device is idempotent — when a bridge of the
configured name already exists the operation succeeds as a no-op creation
yielding that same device, and ensuring twice yields exactly the result and
state of ensuring once; when a link of that name exists but is not a
bridge, it fails with the naming-conflict error. -/
theorem ensureBridgeIsUp_idempotent_or_conflict (env : Env) (st : NetlinkState)
    (brName : String) (mtu : Nat) (l : Link) :
    linkByName st brName = some l →
    (l.kind = .bridge → env.setUpOk l.index = true →
      ensureBridgeIsUp env st brName mtu = (linkSetUp st l.index, .ok l) ∧
      ensureBridgeIsUp env (ensureBridgeIsUp env st brName mtu).1 brName mtu =
        ensureBridgeIsUp env st brName mtu) ∧
    (l.kind ≠ .bridge →
      ensureBridgeIsUp env st brName mtu =
        (st, .error (brName ++ " already exists but is not a bridge"))) := by
  intro hL
  constructor
  · intro hk hup
    have h1 := ensureBridgeIsUp_existing env st brName mtu l hL hk hup
    have hL2 : linkByName (linkSetUp st l.index) brName = some l := by
      rw [linkByName_linkSetUp]; exact hL
    have h2 := ensureBridgeIsUp_existing env (linkSetUp st l.index) brName mtu l hL2 hk hup
    refine ⟨h1, ?_⟩
    rw [h1]
    dsimp only
    rw [h2, linkSetUp_idem, ← h1]
  · intro hk
    exact ensureBridgeIsUp_conflict env st brName mtu l hL hk

/-- Witness for C8: over a state already holding the bridge kvm-cni0,
ensuring returns that device and ensuring twice equals ensuring once. -/
theorem ensureBridgeIsUp_idempotent_or_conflict_witness :
    ensureBridgeIsUp allOkEnv c8st "kvm-cni0" 1500 =
      (linkSetUp c8st 0, .ok ⟨"kvm-cni0", .bridge, 1500, 0⟩) ∧
    ensureBridgeIsUp allOkEnv (ensureBridgeIsUp allOkEnv c8st "kvm-cni0" 1500).1
        "kvm-cni0" 1500 =
      ensureBridgeIsUp allOkEnv c8st "kvm-cni0" 1500 :=
  (ensureBridgeIsUp_idempotent_or_conflict allOkEnv c8st "kvm-cni0" 1500
    ⟨"kvm-cni0", .bridge, 1500, 0⟩ rfl).1 rfl rfl

/-- C9: on the macvlan provisioning path, when the newly created macvtap
link fails to be brought up, the just-created link is deleted before the
error is returned — the final link table equals the initial one, so this
failure path leaves no orphaned kernel link. -/
theorem setupMacVTapDevice_no_orphan_on_bringup_failure (env : Env)
    (st : NetlinkState) (podID : String) (config : MacVTapNetConf) (i : Nat)
    (master : Link) (mode : MacvlanMode) :
    linkByName st config.master = some master →
    macvlanModeOf config.mode = some mode →
    linkByName st (macvtapIfaceName podID i) = none →
    env.setUpOk st.nextIndex = false →
    (∀ l ∈ st.links, l.index ≠ st.nextIndex) →
    (setupMacVTapDevice env st podID config i).1.links = st.links ∧
    (setupMacVTapDevice env st podID config i).2 =
      .error "cannot set up macvtap interface" := by
  intro hM hmode hfreshName hup hfresh
  have hIsNone : (linkByName st (macvtapIfaceName podID i)).isSome = false := by
    rw [hfreshName]; rfl
  unfold setupMacVTapDevice linkAdd
  rw [hM, hmode]
  dsimp only
  rw [hfreshName]
  dsimp only [Option.isSome_none]
  simp only [Bool.false_eq_true, if_false]
  rw [hup]
  dsimp only [linkDel]
  constructor
  · dsimp only
    rw [List.filter_append]
    have h1 : st.links.filter (fun l => decide (l.index ≠ st.nextIndex)) = st.links := by
      apply List.filter_eq_self.mpr
      intro a ha
      exact decide_eq_true (hfresh a ha)
    have h2 : [Link.mk (macvtapIfaceName podID i)
        (.macvtap mode master.index)
        (if config.mtu ≠ 0 then config.mtu else master.mtu) st.nextIndex].filter
          (fun l => decide (l.index ≠ st.nextIndex)) = [] := by
      simp
    rw [h1, h2, List.append_nil]
    rfl
  · rfl

/-- Witness for C9: a concrete failing bring-up over master eth0 deletes
the created macvtap link, leaving the initial link table. -/
theorem setupMacVTapDevice_no_orphan_on_bringup_failure_witness :
    (setupMacVTapDevice c9env c7st "0a1b2c3d" c9config 0).1.links = c7st.links ∧
    (setupMacVTapDevice c9env c7st "0a1b2c3d" c9config 0).2 =
      .error "cannot set up macvtap interface" :=
  setupMacVTapDevice_no_orphan_on_bringup_failure c9env c7st "0a1b2c3d" c9config 0
    ⟨"eth0", .other "device", 1500, 0⟩ .MACVLAN_MODE_BRIDGE rfl rfl rfl rfl
    (by intro l hl; simp [c7st] at hl; simp [hl, c7st])

/-- Erasing, in order, every element of a sublist whose elements all fail a
kept-by predicate from a list headed by an element satisfying it keeps that
head in place. -/
theorem foldl_erase_cons_of_ne {α : Type} [DecidableEq α] (p : α → Bool) (a : α)
    (hpa : p a = false) :
    ∀ (xs l : List α), (∀ x ∈ xs, p x = true) →
      xs.foldl List.erase (a :: l) = a :: xs.foldl List.erase l := by
  intro xs
  induction xs with
  | nil => intro l _; rfl
  | cons x xs ih =>
    intro l hall
    have hpx : p x = true := hall x (List.mem_cons_self x xs)
    have hax : ¬(a == x) = true := by
      intro h
      rw [eq_of_beq h, hpx] at hpa
      cases hpa
    calc (x :: xs).foldl List.erase (a :: l)
        = xs.foldl List.erase ((a :: l).erase x) := rfl
      _ = xs.foldl List.erase (a :: l.erase x) := by
          rw [List.erase_cons_tail hax]
      _ = a :: xs.foldl List.erase (l.erase x) :=
          ih (l.erase x) (fun y hy => hall y (List.mem_cons_of_mem x hy))
      _ = a :: (x :: xs).foldl List.erase l := rfl

/-- Erasing, in order, every element of the filtered sublist of a list empties
the filter: nothing satisfying the predicate survives. -/
theorem filter_foldl_erase_nil {α : Type} [DecidableEq α] (p : α → Bool) :
    ∀ l : List α, ((l.filter p).foldl List.erase l).filter p = [] := by
  intro l
  induction l with
  | nil => rfl
  | cons a t ih =>
    by_cases hpa : p a = true
    · rw [List.filter_cons_of_pos hpa]
      calc ((a :: t.filter p).foldl List.erase (a :: t)).filter p
          = ((t.filter p).foldl List.erase ((a :: t).erase a)).filter p := rfl
        _ = ((t.filter p).foldl List.erase t).filter p := by
            rw [List.erase_cons_head]
        _ = [] := ih
    · have hpa' : p a = false := by simpa using hpa
      rw [List.filter_cons_of_neg (by simp [hpa'])]
      rw [foldl_erase_cons_of_ne p a hpa' (t.filter p) t
            (fun x hx => List.of_mem_filter hx)]
      rw [List.filter_cons_of_neg (by simp [hpa'])]
      exact ih

/-- Deleting a batch of routes only touches the route table. -/
theorem foldl_routeDel_routes (rs : List Route) :
    ∀ st : NetlinkState, (rs.foldl routeDel st).routes = rs.foldl List.erase st.routes := by
  induction rs with
  | nil => intro st; rfl
  | cons r rs ih => intro st; exact ih (routeDel st r)

/-- Deleting a batch of routes leaves the link table unchanged. -/
theorem foldl_routeDel_links (rs : List Route) :
    ∀ st : NetlinkState, (rs.foldl routeDel st).links = st.links := by
  induction rs with
  | nil => intro st; rfl
  | cons r rs ih => intro st; exact ih (routeDel st r)

/-- After removeAllRoutesOnLink, the IPv4 route list of the link is empty. -/
theorem routeList_removeAllRoutesOnLink (st : NetlinkState) (link : Link) :
    routeList (removeAllRoutesOnLink st link) link.index .V4 = [] := by
  show ((removeAllRoutesOnLink st link).routes.filter _) = []
  rw [show (removeAllRoutesOnLink st link).routes =
        (routeList st link.index .V4).foldl List.erase st.routes from
      foldl_routeDel_routes _ st]
  exact filter_foldl_erase_nil _ st.routes

/-- addRoute appends exactly its one route to the IPv4 route list of the link. -/
theorem routeList_addRoute_self (st : NetlinkState) (link : Link) (podIP : IPv4) :
    routeList (addRoute st link podIP) link.index .V4 =
      routeList st link.index .V4 ++
        [⟨link.index, .SCOPE_LINK, .V4, some ⟨podIP, ⟨255, 255, 255, 255⟩⟩⟩] := by
  show (st.routes ++ [_]).filter _ = _
  rw [List.filter_append]
  congr 1
  simp

/-- ensureHasAddr never changes the route table or the link table. -/
theorem ensureHasAddr_frame (st : NetlinkState) (link : Link) (a : Addr) :
    ((ensureHasAddr st link a).1).routes = st.routes ∧
    ((ensureHasAddr st link a).1).links = st.links := by
  unfold ensureHasAddr
  dsimp only
  split
  · exact ⟨rfl, rfl⟩
  · split
    · exact ⟨rfl, rfl⟩
    · exact ⟨rfl, rfl⟩

/-- Bringing a link up leaves the link table unchanged. -/
theorem linkSetUp_links (st : NetlinkState) (i : Nat) :
    (linkSetUp st i).links = st.links := by
  unfold linkSetUp
  split <;> rfl

/-- Bringing a link up leaves the route table unchanged. -/
theorem linkSetUp_routes (st : NetlinkState) (i : Nat) :
    (linkSetUp st i).routes = st.routes := by
  unfold linkSetUp
  split <;> rfl

/-- A successful setupTapDevice appends exactly the returned link and
leaves the route table unchanged. -/
theorem setupTapDevice_ok (env : Env) (st st1 : NetlinkState) (link : Link) :
    setupTapDevice env st = (st1, .ok link) →
    st1.links = st.links ++ [link] ∧ st1.routes = st.routes := by
  unfold setupTapDevice linkAdd
  intro h
  by_cases hc : env.createTapOk = true
  · simp only [hc, not_true, Bool.not_eq_true, Bool.true_eq_false, if_false] at h
    by_cases hn : (linkByName st env.tapName).isSome = true
    · simp [hn] at h
    · simp only [Bool.not_eq_true] at hn
      simp only [hn, Bool.false_eq_true, if_false] at h
      by_cases hup : env.setUpOk st.nextIndex = true
      · simp only [hup, if_true] at h
        rw [Prod.mk.injEq] at h
        obtain ⟨h1, h2⟩ := h
        injection h2 with h2
        subst h2
        subst h1
        exact ⟨linkSetUp_links _ _, linkSetUp_routes _ _⟩
      · simp [hup] at h
  · simp [hc] at h

/-- The invocation wrapper leaves the runtime interface name unchanged. -/
theorem kvmSetupNetAddressing_ifName (exec : ExecOracle) (fwdOk : Bool)
    (n : ActiveNet) (ifName : String) :
    (kvmSetupNetAddressing exec fwdOk n ifName).1.runtime.ifName =
      n.runtime.ifName := by
  unfold kvmSetupNetAddressing
  split
  · rfl
  · dsimp only
    split <;> rfl

/-- C1 amended: the route scrub and the single host-route installation
happen on the ptp path only. Scrubbing the IPv4 routes of an interface and
adding the pod route leaves exactly one link-scoped /32 route to the pod
address on that interface, from any starting route table; and every
successful ptp provisioning run ends with the created tap interface
carrying exactly that one route. -/
theorem kvmSetupPtpNet_single_host_route (env : Env) (exec : ExecOracle)
    (st : NetlinkState) (n : ActiveNet) (st' : NetlinkState) (n' : ActiveNet) :
    (∀ (s : NetlinkState) (link : Link) (podIP : IPv4),
      routeList (addRoute (removeAllRoutesOnLink s link) link podIP) link.index .V4 =
        [⟨link.index, .SCOPE_LINK, .V4, some ⟨podIP, ⟨255, 255, 255, 255⟩⟩⟩]) ∧
    (kvmSetupPtpNet env exec st n = some (st', .ok n') →
      ∃ (link : Link) (podIP : IPv4),
        n'.runtime.ifName = link.name ∧ n'.runtime.ip = some podIP ∧
        link ∈ st'.links ∧
        routeList st' link.index .V4 =
          [⟨link.index, .SCOPE_LINK, .V4, some ⟨podIP, ⟨255, 255, 255, 255⟩⟩⟩]) := by
  constructor
  · intro s link podIP
    rw [routeList_addRoute_self, routeList_removeAllRoutesOnLink]
    rfl
  · intro h
    unfold kvmSetupPtpNet at h
    split at h
    · simp at h
    · rename_i st1 link heq1
      dsimp only at h
      split at h
      · simp at h
      · rename_i n2 tr heq2
        split at h
        · rename_i ip4 mask heq3 heq4
          split at h
          · simp at h
          · rename_i st2 u heq5
            split at h
            · rename_i podIP heq6
              rw [Option.some.injEq, Prod.mk.injEq] at h
              obtain ⟨hst, hn⟩ := h
              injection hn with hn
              subst hn
              subst hst
              refine ⟨link, podIP, ?_, heq6, ?_, ?_⟩
              · have hif := kvmSetupNetAddressing_ifName exec env.fwdOk
                  { n with runtime := { n.runtime with ifName := link.name } } link.name
                rw [heq2] at hif
                exact hif
              · have hlinks2 : st2.links = st1.links := by
                  have := (ensureHasAddr_frame st1 link ⟨ip4.gateway, mask⟩).2
                  rw [heq5] at this
                  exact this
                have hlinks1 : st1.links = st.links ++ [link] :=
                  (setupTapDevice_ok env st st1 link heq1).1
                show link ∈ (addRoute (removeAllRoutesOnLink st2 link) link podIP).links
                have : (addRoute (removeAllRoutesOnLink st2 link) link podIP).links =
                    st2.links := foldl_routeDel_links _ st2
                rw [this, hlinks2, hlinks1]
                exact List.mem_append_right _ (List.mem_singleton.mpr rfl)
              · rw [routeList_addRoute_self, routeList_removeAllRoutesOnLink]
                rfl
            · simp at h
        · simp at h

/-- Witness for C1: a concrete successful ptp run over the empty kernel
state ends with the tap interface carrying exactly the one /32 route to the
assigned pod address. -/
theorem kvmSetupPtpNet_single_host_route_witness :
    ∃ (link : Link) (podIP : IPv4),
      c1nF.runtime.ifName = link.name ∧ c1nF.runtime.ip = some podIP ∧
      link ∈ c1stF.links ∧
      routeList c1stF link.index .V4 =
        [⟨link.index, .SCOPE_LINK, .V4, some ⟨podIP, ⟨255, 255, 255, 255⟩⟩⟩] :=
  (kvmSetupPtpNet_single_host_route allOkEnv goodExec emptyNetlink ptpNet0
    c1stF c1nF).2 rfl

end KvmNet
